import Mathlib

/-!
Verification of the ScreenApp MCP server (`src/server.py`): a shallow
embedding of its configuration, upstream-client request construction,
tool registry, JSON-RPC dispatchers (`POST /message` and `POST /sse`)
and the SSE event stream (`GET /sse`), with theorems settling the
specification claims about them.
-/

namespace ScreenApp

/-- JSON values, the data the server's dicts and responses are built from. -/
inductive Json where
  | null : Json
  | bool : Bool → Json
  | num : Int → Json
  | str : String → Json
  | arr : List Json → Json
  | obj : List (String × Json) → Json

/-- Look up a key in a JSON object; `none` when the value is not an object
or the key is absent (first occurrence wins, as in a Python dict built
from distinct literal keys). -/
def Json.getKey : Json → String → Option Json
  | .obj kvs, k => kvs.lookup k
  | _, _ => none

/-- Whether a JSON object carries a key. -/
def Json.hasKey (j : Json) (k : String) : Bool :=
  (j.getKey k).isSome

mutual

/-- Python `str()` of a JSON-like value as used in the server's f-strings:
strings render verbatim, `None`/`True`/`False` capitalised, numbers as
digits; containers render their elements recursively. -/
def pyStr : Json → String
  | .null => "None"
  | .bool true => "True"
  | .bool false => "False"
  | .num n => toString n
  | .str s => s
  | .arr xs => "[" ++ pyStrSeq xs ++ "]"
  | .obj kvs => "\x7b" ++ pyStrFields kvs ++ "\x7d"

def pyStrSeq : List Json → String
  | [] => ""
  | [x] => pyStr x
  | x :: y :: xs => pyStr x ++ ", " ++ pyStrSeq (y :: xs)

def pyStrFields : List (String × Json) → String
  | [] => ""
  | [(k, v)] => k ++ ": " ++ pyStr v
  | (k, v) :: kv :: kvs => k ++ ": " ++ pyStr v ++ ", " ++ pyStrFields (kv :: kvs)

end

/-! ## Configuration (src/server.py lines 25-26)

`SCREENAPP_API_BASE_URL` defaults to the public endpoint;
`SCREENAPP_API_KEY` defaults to the empty string — `os.getenv` with
default `""` never fails, so an absent credential leaves the variable
equal to `""`. The embedding keeps the key as an explicit parameter since
it comes from the process environment. -/

def SCREENAPP_API_BASE_URL : String := "https://api.screenapp.io/v2"

/-- `os.getenv("SCREENAPP_API_KEY", "")` (line 26): the configured key when
the environment carries one, otherwise the empty-string default. -/
def SCREENAPP_API_KEY (env : Option String) : String := env.getD ""

/-- `get_headers` (lines 48-53): bearer token and JSON content type,
built unconditionally from the module-level key. -/
def get_headers (apiKey : String) : List (String × String) :=
  [("Authorization", "Bearer " ++ apiKey), ("Content-Type", "application/json")]

/-! ## Upstream client (src/server.py lines 56-78) -/

/-- Python `str.upper()` on the method strings the server passes around. -/
def pyUpper (s : String) : String := ⟨s.data.map Char.toUpper⟩

/-- The outbound HTTP request an upstream-client call issues, with the
timeout the enclosing `httpx.AsyncClient` was configured with. -/
structure UpstreamRequest where
  httpMethod : String
  url : String
  headers : List (String × String)
  jsonBody : Option Json
  queryParams : Option Json
  timeout : Nat

/-- `make_screenapp_request` (lines 56-78): builds the URL from the base and
endpoint, opens `httpx.AsyncClient(timeout=120.0)` — one constant timeout
for every call — then dispatches on the upper-cased method; an unsupported
method raises `ValueError` before any request is sent. -/
def make_screenapp_request (httpMethod endpoint : String)
    (data : Option Json) (params : Option Json) (apiKey : String) :
    Except String UpstreamRequest :=
  let url := SCREENAPP_API_BASE_URL ++ endpoint
  if pyUpper httpMethod = "GET" then
    .ok ⟨"GET", url, get_headers apiKey, none, params, 120⟩
  else if pyUpper httpMethod = "POST" then
    .ok ⟨"POST", url, get_headers apiKey, data, none, 120⟩
  else if pyUpper httpMethod = "PUT" then
    .ok ⟨"PUT", url, get_headers apiKey, data, none, 120⟩
  else if pyUpper httpMethod = "DELETE" then
    .ok ⟨"DELETE", url, get_headers apiKey, none, none, 120⟩
  else
    .error ("Unsupported HTTP method: " ++ httpMethod)

/-- `handle_list_teams` (lines 85-88) reduced to the upstream request it
issues: `GET /teams` with no body or query parameters. -/
def handle_list_teams_request (apiKey : String) : Except String UpstreamRequest :=
  make_screenapp_request "GET" "/teams" none none apiKey

/-- `handle_ask_recording` (lines 131-138) reduced to the upstream request
it issues: `POST /recordings/{file_id}/ask` with the question as body. -/
def handle_ask_recording_request (arguments : List (String × Json)) (apiKey : String) :
    Except String UpstreamRequest :=
  let file_id := arguments.lookup "file_id"
  let question := arguments.lookup "question"
  let fileIdStr := match file_id with | none => "None" | some j => pyStr j
  make_screenapp_request "POST" ("/recordings/" ++ fileIdStr ++ "/ask")
    (some (Json.obj [("question", question.getD Json.null)])) none apiKey

/-! ## Startup (src/server.py lines 696-709)

The `__main__` block reads the port, prints four status lines (one of
which reports whether the key is configured) and unconditionally calls
`uvicorn.run` — there is no credential check and no early exit. -/

inductive StartupAction where
  | bindListener : Nat → StartupAction
  | exitWithError : String → StartupAction
deriving DecidableEq

structure StartupResult where
  log : List String
  action : StartupAction

/-- The startup sequence of the `__main__` block (lines 696-709), with the
decorative emoji prefixes of the print statements elided. -/
def startup (apiKey : String) (port : Nat) : StartupResult :=
  { log :=
      [ "Starting ScreenApp MCP Server on port " ++ toString port,
        "API URL: " ++ SCREENAPP_API_BASE_URL,
        "API Key configured: " ++ (if apiKey = "" then "False" else "True"),
        "Tools available: 13" ],
    action := .bindListener port }

/-! ## Tool registry (src/server.py lines 227-403) -/

/-- The `inputSchema` dict of a tool descriptor: a `type` tag, a
`properties` dict of per-argument schemas (kept as raw JSON, as in the
source), and an optional `required` list — `list_teams` and `get_profile`
omit the `required` key entirely. -/
structure InputSchema where
  schemaType : String
  properties : List (String × Json)
  required : Option (List String)

/-- One entry of the `TOOLS` list. -/
structure ToolDescriptor where
  name : String
  description : String
  inputSchema : InputSchema

/-- Serialise an input schema back to the JSON dict it was written as. -/
def InputSchema.toJson (s : InputSchema) : Json :=
  Json.obj
    ([("type", Json.str s.schemaType), ("properties", Json.obj s.properties)] ++
      (match s.required with
       | some req => [("required", Json.arr (req.map Json.str))]
       | none => []))

/-- Serialise a tool descriptor back to the JSON dict it was written as. -/
def ToolDescriptor.toJson (t : ToolDescriptor) : Json :=
  Json.obj
    [("name", Json.str t.name), ("description", Json.str t.description),
     ("inputSchema", t.inputSchema.toJson)]

/-- The `TOOLS` list (lines 227-386), transcribed entry by entry. -/
def TOOLS : List ToolDescriptor :=
  [ { name := "list_teams",
      description := "List all teams the user belongs to in ScreenApp",
      inputSchema := { schemaType := "object", properties := [], required := none } },
    { name := "get_team",
      description := "Get detailed information about a specific team",
      inputSchema :=
        { schemaType := "object",
          properties :=
            [("team_id", Json.obj [("type", Json.str "string"), ("description", Json.str "The team ID")])],
          required := some ["team_id"] } },
    { name := "list_recordings",
      description := "List recordings from a specific team with pagination",
      inputSchema :=
        { schemaType := "object",
          properties :=
            [("team_id", Json.obj [("type", Json.str "string"), ("description", Json.str "The team ID")]),
             ("limit", Json.obj [("type", Json.str "number"), ("description", Json.str "Number of recordings to return (default: 20)"), ("default", Json.num 20)]),
             ("offset", Json.obj [("type", Json.str "number"), ("description", Json.str "Pagination offset (default: 0)"), ("default", Json.num 0)])],
          required := some ["team_id"] } },
    { name := "get_recording",
      description := "Get detailed information about a specific recording including transcript and metadata",
      inputSchema :=
        { schemaType := "object",
          properties :=
            [("file_id", Json.obj [("type", Json.str "string"), ("description", Json.str "The recording/file ID")])],
          required := some ["file_id"] } },
    { name := "search_recordings",
      description := "Search for content within recording transcripts using keywords",
      inputSchema :=
        { schemaType := "object",
          properties :=
            [("team_id", Json.obj [("type", Json.str "string"), ("description", Json.str "The team ID")]),
             ("query", Json.obj [("type", Json.str "string"), ("description", Json.str "Search query string")]),
             ("created_after", Json.obj [("type", Json.str "string"), ("description", Json.str "Filter recordings created after this date (ISO 8601)")]),
             ("created_before", Json.obj [("type", Json.str "string"), ("description", Json.str "Filter recordings created before this date (ISO 8601)")])],
          required := some ["team_id", "query"] } },
    { name := "ask_recording",
      description := "Ask AI a question about a specific recording using its transcript",
      inputSchema :=
        { schemaType := "object",
          properties :=
            [("file_id", Json.obj [("type", Json.str "string"), ("description", Json.str "The recording/file ID")]),
             ("question", Json.obj [("type", Json.str "string"), ("description", Json.str "Question to ask about the recording")])],
          required := some ["file_id", "question"] } },
    { name := "ask_multiple_recordings",
      description := "Ask AI a question across multiple recordings to find patterns or insights",
      inputSchema :=
        { schemaType := "object",
          properties :=
            [("team_id", Json.obj [("type", Json.str "string"), ("description", Json.str "The team ID")]),
             ("question", Json.obj [("type", Json.str "string"), ("description", Json.str "Question to ask across recordings")]),
             ("file_ids", Json.obj [("type", Json.str "array"), ("items", Json.obj [("type", Json.str "string")]), ("description", Json.str "Optional list of specific file IDs to query")])],
          required := some ["team_id", "question"] } },
    { name := "ask_multimodal",
      description := "Ask a multimodal AI question about a recording using both transcript and video",
      inputSchema :=
        { schemaType := "object",
          properties :=
            [("file_id", Json.obj [("type", Json.str "string"), ("description", Json.str "The recording/file ID")]),
             ("prompt_text", Json.obj [("type", Json.str "string"), ("description", Json.str "The question or analysis prompt")]),
             ("transcript_start", Json.obj [("type", Json.str "number"), ("description", Json.str "Start time for transcript segment in seconds (default: 0)"), ("default", Json.num 0)]),
             ("transcript_end", Json.obj [("type", Json.str "number"), ("description", Json.str "End time for transcript segment in seconds (default: 120)"), ("default", Json.num 120)])],
          required := some ["file_id", "prompt_text"] } },
    { name := "get_profile",
      description := "Get the current user's ScreenApp profile information",
      inputSchema := { schemaType := "object", properties := [], required := none } },
    { name := "add_file_tag",
      description := "Add a tag to a file/recording for organization",
      inputSchema :=
        { schemaType := "object",
          properties :=
            [("file_id", Json.obj [("type", Json.str "string"), ("description", Json.str "The file ID")]),
             ("key", Json.obj [("type", Json.str "string"), ("description", Json.str "Tag key (e.g., 'project', 'category')")]),
             ("value", Json.obj [("type", Json.str "string"), ("description", Json.str "Tag value")])],
          required := some ["file_id", "key", "value"] } },
    { name := "remove_file_tag",
      description := "Remove a tag from a file/recording",
      inputSchema :=
        { schemaType := "object",
          properties :=
            [("file_id", Json.obj [("type", Json.str "string"), ("description", Json.str "The file ID")]),
             ("key", Json.obj [("type", Json.str "string"), ("description", Json.str "Tag key to remove")])],
          required := some ["file_id", "key"] } },
    { name := "register_webhook",
      description := "Register a webhook URL to receive real-time notifications for team recording events",
      inputSchema :=
        { schemaType := "object",
          properties :=
            [("team_id", Json.obj [("type", Json.str "string"), ("description", Json.str "The team ID")]),
             ("url", Json.obj [("type", Json.str "string"), ("description", Json.str "Webhook URL (must be HTTPS)")]),
             ("name", Json.obj [("type", Json.str "string"), ("description", Json.str "Name/description of the webhook")])],
          required := some ["team_id", "url", "name"] } },
    { name := "unregister_webhook",
      description := "Unregister/remove a webhook URL for a team",
      inputSchema :=
        { schemaType := "object",
          properties :=
            [("team_id", Json.obj [("type", Json.str "string"), ("description", Json.str "The team ID")]),
             ("url", Json.obj [("type", Json.str "string"), ("description", Json.str "Webhook URL to unregister")])],
          required := some ["team_id", "url"] } } ]

/-- The thirteen handler functions of src/server.py lines 85-220, as an
enumeration: in the embedding a handler's behaviour is supplied by an
outcome oracle, so the mapping only needs to identify which function each
registry key is bound to. -/
inductive Handler where
  | handle_list_teams
  | handle_get_team
  | handle_list_recordings
  | handle_get_recording
  | handle_search_recordings
  | handle_ask_recording
  | handle_ask_multiple_recordings
  | handle_ask_multimodal
  | handle_get_profile
  | handle_add_file_tag
  | handle_remove_file_tag
  | handle_register_webhook
  | handle_unregister_webhook
deriving DecidableEq

/-- The `TOOL_HANDLERS` dict (lines 389-403), transcribed in order. -/
def TOOL_HANDLERS : List (String × Handler) :=
  [ ("list_teams", .handle_list_teams),
    ("get_team", .handle_get_team),
    ("list_recordings", .handle_list_recordings),
    ("get_recording", .handle_get_recording),
    ("search_recordings", .handle_search_recordings),
    ("ask_recording", .handle_ask_recording),
    ("ask_multiple_recordings", .handle_ask_multiple_recordings),
    ("ask_multimodal", .handle_ask_multimodal),
    ("get_profile", .handle_get_profile),
    ("add_file_tag", .handle_add_file_tag),
    ("remove_file_tag", .handle_remove_file_tag),
    ("register_webhook", .handle_register_webhook),
    ("unregister_webhook", .handle_unregister_webhook) ]

/-! ## JSON-RPC request/response model

Both POST endpoints read the body with `await request.json()` and then use
only `body.get("id", 1)`, `body.get("method", "")`, `body.get("params", {})`,
`params.get("name")` and `params.get("arguments", {})`. The embedding
covers every syntactically valid JSON-RPC envelope: `method` and
`params.name`, when present, are strings (as JSON-RPC requires), `id` is
an arbitrary JSON value, and an unparseable body is the `malformed` case. -/

/-- The `params` member of an inbound request, as consumed by the code:
an optional `name` and an optional `arguments` dict. -/
structure RpcParams where
  name : Option String
  arguments : Option (List (String × Json))

/-- An inbound JSON-RPC request body. Each field is `none` when the
corresponding key is absent, in which case the code's `.get` defaults
apply. -/
structure RpcRequest where
  id : Option Json
  method : Option String
  params : Option RpcParams

/-- What `await request.json()` produced: a parse failure or a body. -/
inductive InboundBody where
  | malformed : InboundBody
  | parsed : RpcRequest → InboundBody

/-- An HTTP reply: the status code (FastAPI serialises a returned dict with
status 200; the explicit `JSONResponse` branches set 400) and the JSON
body. -/
structure HttpReply where
  status : Nat
  body : Json

/-- The outcome of awaiting a tool handler coroutine: the dict it returned,
or the exception `e` it raised, identified by `str(e)`. -/
inductive HandlerOutcome where
  | ok : Json → HandlerOutcome
  | exn : String → HandlerOutcome

/-- A handler-outcome oracle: what `await TOOL_HANDLERS[tool_name](arguments)`
does for each registered name and argument dict. The dispatchers are
parametric in it, since the handlers' behaviour depends on the upstream
network. -/
def HandlerOracle := String → List (String × Json) → HandlerOutcome

/-! ## POST /message dispatcher (src/server.py lines 453-537) -/

/-- `handle_message` (lines 453-537): parse failure yields a bare 400
`{"error": "Invalid JSON"}`; then the method routes to `initialize`,
`tools/list`, `tools/call` (registered tool: invoke and wrap, with any
exception converted to `-32603`; unknown or absent tool name: `-32601`
"Tool not found"); any other method falls through to a `-32600`
"Invalid request" error. -/
def handle_message (oracle : HandlerOracle) : InboundBody → HttpReply
  | .malformed => ⟨400, Json.obj [("error", Json.str "Invalid JSON")]⟩
  | .parsed body =>
    let request_id := body.id.getD (Json.num 1)
    let method := body.method.getD ""
    if method = "initialize" then
      ⟨200, Json.obj
        [("jsonrpc", Json.str "2.0"), ("id", request_id),
         ("result", Json.obj
           [("protocolVersion", Json.str "2024-11-05"),
            ("serverInfo", Json.obj
              [("name", Json.str "screenapp"), ("version", Json.str "1.0.0")]),
            ("capabilities", Json.obj [("tools", Json.obj [])])])]⟩
    else if method = "tools/list" then
      ⟨200, Json.obj
        [("jsonrpc", Json.str "2.0"), ("id", request_id),
         ("result", Json.obj [("tools", Json.arr (TOOLS.map ToolDescriptor.toJson))])]⟩
    else if method = "tools/call" then
      let params := body.params.getD ⟨none, none⟩
      let tool_name := params.name
      let arguments := params.arguments.getD []
      match tool_name with
      | some name =>
        if (TOOL_HANDLERS.map Prod.fst).contains name then
          match oracle name arguments with
          | .ok result =>
            ⟨200, Json.obj
              [("jsonrpc", Json.str "2.0"), ("id", request_id), ("result", result)]⟩
          | .exn e =>
            ⟨200, Json.obj
              [("jsonrpc", Json.str "2.0"), ("id", request_id),
               ("error", Json.obj
                 [("code", Json.num (-32603)),
                  ("message", Json.str ("Internal error: " ++ e))])]⟩
        else
          ⟨200, Json.obj
            [("jsonrpc", Json.str "2.0"), ("id", request_id),
             ("error", Json.obj
               [("code", Json.num (-32601)),
                ("message", Json.str ("Tool not found: " ++ name))])]⟩
      | none =>
        ⟨200, Json.obj
          [("jsonrpc", Json.str "2.0"), ("id", request_id),
           ("error", Json.obj
             [("code", Json.num (-32601)),
              ("message", Json.str ("Tool not found: " ++ "None"))])]⟩
    else
      ⟨200, Json.obj
        [("jsonrpc", Json.str "2.0"), ("id", request_id),
         ("error", Json.obj
           [("code", Json.num (-32600)), ("message", Json.str "Invalid request")])]⟩

/-! ## POST /sse dispatcher (src/server.py lines 598-689) -/

/-- `sse_handler_post` (lines 598-689): identical to `handle_message` on the
three known methods; it differs on parse failure (a 400 JSON-RPC envelope
with code `-32700` "Parse error") and on unknown methods (`-32601`
"Method not found: {method}"). -/
def sse_handler_post (oracle : HandlerOracle) : InboundBody → HttpReply
  | .malformed =>
    ⟨400, Json.obj
      [("jsonrpc", Json.str "2.0"),
       ("error", Json.obj
         [("code", Json.num (-32700)), ("message", Json.str "Parse error")])]⟩
  | .parsed body =>
    let request_id := body.id.getD (Json.num 1)
    let method := body.method.getD ""
    if method = "initialize" then
      ⟨200, Json.obj
        [("jsonrpc", Json.str "2.0"), ("id", request_id),
         ("result", Json.obj
           [("protocolVersion", Json.str "2024-11-05"),
            ("serverInfo", Json.obj
              [("name", Json.str "screenapp"), ("version", Json.str "1.0.0")]),
            ("capabilities", Json.obj [("tools", Json.obj [])])])]⟩
    else if method = "tools/list" then
      ⟨200, Json.obj
        [("jsonrpc", Json.str "2.0"), ("id", request_id),
         ("result", Json.obj [("tools", Json.arr (TOOLS.map ToolDescriptor.toJson))])]⟩
    else if method = "tools/call" then
      let params := body.params.getD ⟨none, none⟩
      let tool_name := params.name
      let arguments := params.arguments.getD []
      match tool_name with
      | some name =>
        if (TOOL_HANDLERS.map Prod.fst).contains name then
          match oracle name arguments with
          | .ok result =>
            ⟨200, Json.obj
              [("jsonrpc", Json.str "2.0"), ("id", request_id), ("result", result)]⟩
          | .exn e =>
            ⟨200, Json.obj
              [("jsonrpc", Json.str "2.0"), ("id", request_id),
               ("error", Json.obj
                 [("code", Json.num (-32603)),
                  ("message", Json.str ("Internal error: " ++ e))])]⟩
        else
          ⟨200, Json.obj
            [("jsonrpc", Json.str "2.0"), ("id", request_id),
             ("error", Json.obj
               [("code", Json.num (-32601)),
                ("message", Json.str ("Tool not found: " ++ name))])]⟩
      | none =>
        ⟨200, Json.obj
          [("jsonrpc", Json.str "2.0"), ("id", request_id),
           ("error", Json.obj
             [("code", Json.num (-32601)),
              ("message", Json.str ("Tool not found: " ++ "None"))])]⟩
    else
      ⟨200, Json.obj
        [("jsonrpc", Json.str "2.0"), ("id", request_id),
         ("error", Json.obj
           [("code", Json.num (-32601)),
            ("message", Json.str ("Method not found: " ++ method))])]⟩

/-! ## GET /sse event stream (src/server.py lines 540-595)

The generator `event_stream` yields the `notifications/initialized`
message, then loops forever: sleep 15 seconds, yield a heartbeat comment.
An `asyncio.CancelledError` (client disconnect) exits the loop silently;
any other exception yields one final `error` event. The embedding indexes
the generator's output by its fate — how many 15-second sleeps completed
and how the loop was (or was not yet) interrupted — and reads off the
list of events emitted. -/

/-- One server-sent event as written to the wire by `event_stream`. -/
inductive SSEEvent where
  | message : Json → SSEEvent
  | heartbeat : SSEEvent
  | errorEvent : Json → SSEEvent

/-- Whether an event is the pushed `notifications/initialized` message
(an `event: message` line, as opposed to a heartbeat comment or an
`event: error` line). -/
def SSEEvent.isMessage : SSEEvent → Bool
  | .message _ => true
  | _ => false

/-- The `init_message` dict (lines 552-565), pushed as the first event. -/
def init_message : Json :=
  Json.obj
    [("jsonrpc", Json.str "2.0"),
     ("method", Json.str "notifications/initialized"),
     ("params", Json.obj
       [("protocolVersion", Json.str "2024-11-05"),
        ("serverInfo", Json.obj
          [("name", Json.str "screenapp"), ("version", Json.str "1.0.0")]),
        ("capabilities", Json.obj [("tools", Json.obj [])])])]

/-- The `error_message` dict (lines 576-582) for an exception `e`. -/
def error_message (e : String) : Json :=
  Json.obj
    [("jsonrpc", Json.str "2.0"),
     ("method", Json.str "notifications/error"),
     ("params", Json.obj [("error", Json.str e)])]

/-- How a run of the `event_stream` generator was interrupted, if at all:
each constructor records the number of completed 15-second sleeps.
`running n` is an uninterrupted run observed after `n` sleeps;
`cancelled n` is a client disconnect delivered as `asyncio.CancelledError`
at a suspension point after `n` completed sleeps; `failed n e` is any
other exception `e` raised there. -/
inductive StreamFate where
  | running : Nat → StreamFate
  | cancelled : Nat → StreamFate
  | failed : Nat → String → StreamFate

/-- The events `event_stream` (lines 547-583) has emitted under a given
fate: the initial message, one heartbeat per completed sleep, then —
only for a non-cancellation exception — one final error event. The
`except asyncio.CancelledError: pass` arm adds nothing. -/
def event_stream : StreamFate → List SSEEvent
  | .running n => SSEEvent.message init_message :: List.replicate n .heartbeat
  | .cancelled n => SSEEvent.message init_message :: List.replicate n .heartbeat
  | .failed n e =>
      SSEEvent.message init_message :: List.replicate n .heartbeat
        ++ [SSEEvent.errorEvent (error_message e)]

/-- The events observed `t` seconds after opening an undisturbed stream:
the sleep completes every 15 seconds, so `t / 15` heartbeats follow the
initial message. -/
def eventsAfter (t : Nat) : List SSEEvent :=
  event_stream (.running (t / 15))

/-! ## Reply observers and fixed oracles used in the statements -/

/-- The `error.code` member of a reply body, when present. -/
def HttpReply.errorCode (r : HttpReply) : Option Json :=
  match r.body.getKey "error" with
  | some err => err.getKey "code"
  | none => none

/-- Whether the reply body carries a `result` key. -/
def HttpReply.hasResult (r : HttpReply) : Bool :=
  r.body.hasKey "result"

/-- A concrete oracle for instantiating dispatcher theorems on code paths
that never reach a handler. -/
def unusedOracle : HandlerOracle := fun _ _ => .exn "unreachable"

/-- A concrete oracle whose handlers all raise an exception rendered as
`"boom"`. -/
def boomOracle : HandlerOracle := fun _ _ => .exn "boom"

/-- A concrete oracle whose handlers all return an empty content dict, the
shape every handler in src/server.py returns on success. -/
def okOracle : HandlerOracle := fun _ _ =>
  .ok (Json.obj [("content", Json.arr [Json.obj
        [("type", Json.str "text"), ("text", Json.str "\x7b\x7d")]])])

/-! ## Claims -/

/-- C9: the registry invariants hold at construction — and, both objects
being module-level constants the code never reassigns or mutates, for the
whole process lifetime: the declared tool names of `TOOLS` coincide with
the keys of `TOOL_HANDLERS` in order and without duplicates, so every
declared name has exactly one handler and vice versa; and every
descriptor's `inputSchema.required` list names only keys of its
`inputSchema.properties` (descriptors without a `required` key are read
as requiring nothing). -/
theorem registry_invariants :
    TOOLS.map ToolDescriptor.name = TOOL_HANDLERS.map Prod.fst
      ∧ (TOOLS.map ToolDescriptor.name).Nodup
      ∧ TOOLS.all (fun t =>
          (t.inputSchema.required.getD []).all
            (fun req => (t.inputSchema.properties.map Prod.fst).contains req)) = true :=
  ⟨rfl, by decide, rfl⟩

/-- C2 counterexample: a malformed body on POST /message yields HTTP 400
whose body is the bare dict with an `"Invalid JSON"` string — it has no
`error.code` member at all, in particular not `-32700`, refuting the
claim that both request/response endpoints return a `-32700` envelope. -/
theorem message_parse_error_lacks_32700 :
    handle_message unusedOracle .malformed
        = ⟨400, Json.obj [("error", Json.str "Invalid JSON")]⟩
      ∧ (handle_message unusedOracle .malformed).errorCode = none
      ∧ (handle_message unusedOracle .malformed).errorCode
          ≠ some (Json.num (-32700)) := by
  refine ⟨rfl, rfl, ?_⟩
  rw [show (handle_message unusedOracle .malformed).errorCode = none from rfl]
  simp

/-- C2 (amended): a malformed body on POST /sse yields HTTP 400 with a
JSON-RPC envelope carrying code `-32700` and no `result` key, while a
malformed body on POST /message yields HTTP 400 with the bare body
`{"error": "Invalid JSON"}`, which carries no JSON-RPC error code. -/
theorem parse_error_responses (oracle : HandlerOracle) :
    sse_handler_post oracle .malformed
        = ⟨400, Json.obj
            [("jsonrpc", Json.str "2.0"),
             ("error", Json.obj
               [("code", Json.num (-32700)), ("message", Json.str "Parse error")])]⟩
      ∧ (sse_handler_post oracle .malformed).errorCode = some (Json.num (-32700))
      ∧ (sse_handler_post oracle .malformed).hasResult = false
      ∧ handle_message oracle .malformed
          = ⟨400, Json.obj [("error", Json.str "Invalid JSON")]⟩
      ∧ (handle_message oracle .malformed).hasResult = false :=
  ⟨rfl, rfl, rfl, rfl, rfl⟩

/-- C3 counterexample: with the credential absent (so that `os.getenv`'s
empty-string default applies), the startup sequence still binds the
listener on port 8000, and the `list_teams` handler still builds its
upstream network request, carrying the degenerate header
`Authorization: Bearer ` — no exit and no configuration error precede the
network I/O, refuting the fail-fast claim. -/
theorem startup_binds_without_credential :
    (startup (SCREENAPP_API_KEY none) 8000).action = .bindListener 8000
      ∧ handle_list_teams_request (SCREENAPP_API_KEY none)
          = .ok ⟨"GET", "https://api.screenapp.io/v2/teams",
                 [("Authorization", "Bearer "), ("Content-Type", "application/json")],
                 none, none, 120⟩ :=
  ⟨rfl, rfl⟩

/-- C3 (amended): the credential is read once at startup with an
empty-string default; whatever its value, startup logs a status line
reporting whether a key is configured and then binds the listener — it
never exits early — and with the credential absent a tool call still
issues its upstream request with an empty bearer token rather than
failing with a configuration error before network I/O. -/
theorem startup_without_credential (env : Option String) (port : Nat) :
    (startup (SCREENAPP_API_KEY env) port).action = .bindListener port
      ∧ (startup (SCREENAPP_API_KEY none) port).log[2]?
          = some "API Key configured: False"
      ∧ get_headers (SCREENAPP_API_KEY none)
          = [("Authorization", "Bearer "), ("Content-Type", "application/json")]
      ∧ handle_list_teams_request (SCREENAPP_API_KEY none)
          = .ok ⟨"GET", "https://api.screenapp.io/v2/teams",
                 [("Authorization", "Bearer "), ("Content-Type", "application/json")],
                 none, none, 120⟩ :=
  ⟨rfl, rfl, rfl, rfl⟩

/-- C4 counterexample: `list_teams` — a metadata/list operation — has its
upstream call configured with the 120-second timeout, not a short
≈30-second one, and the AI-analysis call `ask_recording` receives exactly
the same 120 seconds: the configured value does not vary with the
operation class, refuting the two-class timeout claim. -/
theorem list_teams_timeout_not_short :
    handle_list_teams_request "k"
        = .ok ⟨"GET", "https://api.screenapp.io/v2/teams", get_headers "k",
               none, none, 120⟩
      ∧ handle_ask_recording_request
            [("file_id", Json.str "f1"), ("question", Json.str "why")] "k"
          = .ok ⟨"POST", "https://api.screenapp.io/v2/recordings/f1/ask",
                 get_headers "k", some (Json.obj [("question", Json.str "why")]),
                 none, 120⟩
      ∧ (120 : Nat) ≠ 30 :=
  ⟨rfl, rfl, by decide⟩

/-- C4 (amended): the upstream client configures one uniform 120-second
timeout — `httpx.AsyncClient(timeout=120.0)` — for every call it issues,
whatever the HTTP method, endpoint or operation class. -/
theorem uniform_upstream_timeout (httpMethod endpoint : String)
    (data params : Option Json) (apiKey : String) (req : UpstreamRequest)
    (h : make_screenapp_request httpMethod endpoint data params apiKey = .ok req) :
    req.timeout = 120 := by
  unfold make_screenapp_request at h
  simp only [] at h
  repeat' split at h
  all_goals first
    | (injection h with h; subst h; rfl)
    | (injection h)

/-- Witness for the uniform-timeout theorem at the concrete `GET /teams`
call issued by `list_teams`. -/
theorem uniform_upstream_timeout_witness :
    (⟨"GET", "https://api.screenapp.io/v2/teams", get_headers "", none, none, 120⟩
        : UpstreamRequest).timeout = 120 :=
  uniform_upstream_timeout "GET" "/teams" none none ""
    ⟨"GET", "https://api.screenapp.io/v2/teams", get_headers "", none, none, 120⟩ rfl

/-- C1 counterexample: the valid JSON-RPC request `{"method": "frobnicate"}`
on POST /message is answered with error code `-32600` (Invalid request),
not `-32601`, refuting the claim that both request/response endpoints
answer unknown methods with `-32601` (MethodNotFound). -/
theorem unknown_method_on_message_not_32601 :
    (handle_message unusedOracle
        (.parsed ⟨none, some "frobnicate", none⟩)).errorCode
          = some (Json.num (-32600))
      ∧ (handle_message unusedOracle
          (.parsed ⟨none, some "frobnicate", none⟩)).errorCode
            ≠ some (Json.num (-32601)) := by
  refine ⟨rfl, ?_⟩
  rw [show (handle_message unusedOracle
      (.parsed ⟨none, some "frobnicate", none⟩)).errorCode
        = some (Json.num (-32600)) from rfl]
  intro hc
  injection hc with hc
  injection hc with hc
  omega

/-- C1 (amended): for a valid JSON-RPC body whose method is none of the
three known methods, POST /sse answers with a `-32601` error naming the
method and no result, while POST /message answers with a `-32600`
(Invalid request) error and no result. -/
theorem unknown_method_dispatch (oracle : HandlerOracle) (r : RpcRequest)
    (h1 : r.method.getD "" ≠ "initialize")
    (h2 : r.method.getD "" ≠ "tools/list")
    (h3 : r.method.getD "" ≠ "tools/call") :
    sse_handler_post oracle (.parsed r)
        = ⟨200, Json.obj
            [("jsonrpc", Json.str "2.0"), ("id", r.id.getD (Json.num 1)),
             ("error", Json.obj
               [("code", Json.num (-32601)),
                ("message", Json.str ("Method not found: " ++ r.method.getD ""))])]⟩
      ∧ handle_message oracle (.parsed r)
        = ⟨200, Json.obj
            [("jsonrpc", Json.str "2.0"), ("id", r.id.getD (Json.num 1)),
             ("error", Json.obj
               [("code", Json.num (-32600)),
                ("message", Json.str "Invalid request")])]⟩
      ∧ (sse_handler_post oracle (.parsed r)).hasResult = false
      ∧ (handle_message oracle (.parsed r)).hasResult = false := by
  have hsse : sse_handler_post oracle (.parsed r)
      = ⟨200, Json.obj
          [("jsonrpc", Json.str "2.0"), ("id", r.id.getD (Json.num 1)),
           ("error", Json.obj
             [("code", Json.num (-32601)),
              ("message", Json.str ("Method not found: " ++ r.method.getD ""))])]⟩ := by
    simp only [sse_handler_post]
    rw [if_neg h1, if_neg h2, if_neg h3]
  have hmsg : handle_message oracle (.parsed r)
      = ⟨200, Json.obj
          [("jsonrpc", Json.str "2.0"), ("id", r.id.getD (Json.num 1)),
           ("error", Json.obj
             [("code", Json.num (-32600)),
              ("message", Json.str "Invalid request")])]⟩ := by
    simp only [handle_message]
    rw [if_neg h1, if_neg h2, if_neg h3]
  exact ⟨hsse, hmsg, by rw [hsse]; rfl, by rw [hmsg]; rfl⟩

/-- Witness for the unknown-method theorem at the concrete method
`"frobnicate"`. -/
theorem unknown_method_dispatch_witness :
    sse_handler_post unusedOracle (.parsed ⟨none, some "frobnicate", none⟩)
        = ⟨200, Json.obj
            [("jsonrpc", Json.str "2.0"), ("id", Json.num 1),
             ("error", Json.obj
               [("code", Json.num (-32601)),
                ("message", Json.str "Method not found: frobnicate")])]⟩
      ∧ handle_message unusedOracle (.parsed ⟨none, some "frobnicate", none⟩)
        = ⟨200, Json.obj
            [("jsonrpc", Json.str "2.0"), ("id", Json.num 1),
             ("error", Json.obj
               [("code", Json.num (-32600)),
                ("message", Json.str "Invalid request")])]⟩
      ∧ (sse_handler_post unusedOracle
          (.parsed ⟨none, some "frobnicate", none⟩)).hasResult = false
      ∧ (handle_message unusedOracle
          (.parsed ⟨none, some "frobnicate", none⟩)).hasResult = false :=
  unknown_method_dispatch unusedOracle ⟨none, some "frobnicate", none⟩
    (by decide) (by decide) (by decide)

/-- C5: on the three known methods the two request/response endpoints are
extensionally identical: given the same parsed body and the same handler
outcomes, `handle_message` and `sse_handler_post` return equal replies. -/
theorem transports_agree_on_known_methods (oracle : HandlerOracle) (r : RpcRequest)
    (h : r.method.getD "" = "initialize" ∨ r.method.getD "" = "tools/list"
          ∨ r.method.getD "" = "tools/call") :
    handle_message oracle (.parsed r) = sse_handler_post oracle (.parsed r) := by
  rcases h with h | h | h <;>
    · simp only [handle_message, sse_handler_post]
      rw [h]
      rfl

/-- Witness for the transport-agreement theorem at a concrete `tools/list`
request with id 7. -/
theorem transports_agree_witness :
    handle_message okOracle (.parsed ⟨some (Json.num 7), some "tools/list", none⟩)
      = sse_handler_post okOracle
          (.parsed ⟨some (Json.num 7), some "tools/list", none⟩) :=
  transports_agree_on_known_methods okOracle
    ⟨some (Json.num 7), some "tools/list", none⟩ (Or.inr (Or.inl rfl))

/-- C6: a `tools/call` naming a registered tool whose handler raises an
exception `e` is answered, on both endpoints, with one well-formed HTTP
200 reply: a JSON-RPC error with code `-32603` whose message is the
string `"Internal error: "` followed by `str(e)` — the cause's
description — and with no result key; the dispatcher converts the
exception instead of letting it propagate or leak a partial response. -/
theorem handler_exception_internal_error (oracle : HandlerOracle) (r : RpcRequest)
    (name e : String)
    (hm : r.method.getD "" = "tools/call")
    (hn : (r.params.getD ⟨none, none⟩).name = some name)
    (hreg : (TOOL_HANDLERS.map Prod.fst).contains name = true)
    (hout : oracle name ((r.params.getD ⟨none, none⟩).arguments.getD []) = .exn e) :
    handle_message oracle (.parsed r)
        = ⟨200, Json.obj
            [("jsonrpc", Json.str "2.0"), ("id", r.id.getD (Json.num 1)),
             ("error", Json.obj
               [("code", Json.num (-32603)),
                ("message", Json.str ("Internal error: " ++ e))])]⟩
      ∧ sse_handler_post oracle (.parsed r)
        = ⟨200, Json.obj
            [("jsonrpc", Json.str "2.0"), ("id", r.id.getD (Json.num 1)),
             ("error", Json.obj
               [("code", Json.num (-32603)),
                ("message", Json.str ("Internal error: " ++ e))])]⟩
      ∧ (handle_message oracle (.parsed r)).hasResult = false
      ∧ (sse_handler_post oracle (.parsed r)).hasResult = false := by
  have hmsg : handle_message oracle (.parsed r)
      = ⟨200, Json.obj
          [("jsonrpc", Json.str "2.0"), ("id", r.id.getD (Json.num 1)),
           ("error", Json.obj
             [("code", Json.num (-32603)),
              ("message", Json.str ("Internal error: " ++ e))])]⟩ := by
    simp only [handle_message]
    rw [hm]
    simp only [hn, hreg, hout]
    rfl
  have hsse : sse_handler_post oracle (.parsed r)
      = ⟨200, Json.obj
          [("jsonrpc", Json.str "2.0"), ("id", r.id.getD (Json.num 1)),
           ("error", Json.obj
             [("code", Json.num (-32603)),
              ("message", Json.str ("Internal error: " ++ e))])]⟩ := by
    simp only [sse_handler_post]
    rw [hm]
    simp only [hn, hreg, hout]
    rfl
  exact ⟨hmsg, hsse, by rw [hmsg]; rfl, by rw [hsse]; rfl⟩

/-- Witness for the handler-exception theorem: `tools/call` of the
registered tool `list_teams` under an oracle whose handler raises an
exception rendered as `"boom"`. -/
theorem handler_exception_internal_error_witness :
    handle_message boomOracle
        (.parsed ⟨some (Json.str "abc"), some "tools/call",
                  some ⟨some "list_teams", some []⟩⟩)
        = ⟨200, Json.obj
            [("jsonrpc", Json.str "2.0"), ("id", Json.str "abc"),
             ("error", Json.obj
               [("code", Json.num (-32603)),
                ("message", Json.str "Internal error: boom")])]⟩
      ∧ sse_handler_post boomOracle
          (.parsed ⟨some (Json.str "abc"), some "tools/call",
                    some ⟨some "list_teams", some []⟩⟩)
        = ⟨200, Json.obj
            [("jsonrpc", Json.str "2.0"), ("id", Json.str "abc"),
             ("error", Json.obj
               [("code", Json.num (-32603)),
                ("message", Json.str "Internal error: boom")])]⟩
      ∧ (handle_message boomOracle
          (.parsed ⟨some (Json.str "abc"), some "tools/call",
                    some ⟨some "list_teams", some []⟩⟩)).hasResult = false
      ∧ (sse_handler_post boomOracle
          (.parsed ⟨some (Json.str "abc"), some "tools/call",
                    some ⟨some "list_teams", some []⟩⟩)).hasResult = false :=
  handler_exception_internal_error boomOracle
    ⟨some (Json.str "abc"), some "tools/call", some ⟨some "list_teams", some []⟩⟩
    "list_teams" "boom" rfl rfl (by decide) rfl

/-- C7: a `tools/call` whose `params.name` is absent or not a registry key
is answered, on both endpoints, with a `-32601` error whose message is
`"Tool not found: "` followed by the requested name (rendered `"None"`
when absent, as the f-string renders Python `None`), and the reply has no
result key. -/
theorem unknown_tool_error (oracle : HandlerOracle) (r : RpcRequest)
    (hm : r.method.getD "" = "tools/call")
    (hreg : ∀ s, (r.params.getD ⟨none, none⟩).name = some s →
        (TOOL_HANDLERS.map Prod.fst).contains s = false) :
    handle_message oracle (.parsed r)
        = ⟨200, Json.obj
            [("jsonrpc", Json.str "2.0"), ("id", r.id.getD (Json.num 1)),
             ("error", Json.obj
               [("code", Json.num (-32601)),
                ("message", Json.str ("Tool not found: "
                    ++ (r.params.getD ⟨none, none⟩).name.getD "None"))])]⟩
      ∧ sse_handler_post oracle (.parsed r)
        = ⟨200, Json.obj
            [("jsonrpc", Json.str "2.0"), ("id", r.id.getD (Json.num 1)),
             ("error", Json.obj
               [("code", Json.num (-32601)),
                ("message", Json.str ("Tool not found: "
                    ++ (r.params.getD ⟨none, none⟩).name.getD "None"))])]⟩
      ∧ (handle_message oracle (.parsed r)).hasResult = false
      ∧ (sse_handler_post oracle (.parsed r)).hasResult = false := by
  have hmsg : handle_message oracle (.parsed r)
      = ⟨200, Json.obj
          [("jsonrpc", Json.str "2.0"), ("id", r.id.getD (Json.num 1)),
           ("error", Json.obj
             [("code", Json.num (-32601)),
              ("message", Json.str ("Tool not found: "
                  ++ (r.params.getD ⟨none, none⟩).name.getD "None"))])]⟩ := by
    simp only [handle_message]
    rw [hm]
    cases hcase : (r.params.getD ⟨none, none⟩).name with
    | none => simp only [hcase]; rfl
    | some s => simp only [hcase, hreg s hcase]; rfl
  have hsse : sse_handler_post oracle (.parsed r)
      = ⟨200, Json.obj
          [("jsonrpc", Json.str "2.0"), ("id", r.id.getD (Json.num 1)),
           ("error", Json.obj
             [("code", Json.num (-32601)),
              ("message", Json.str ("Tool not found: "
                  ++ (r.params.getD ⟨none, none⟩).name.getD "None"))])]⟩ := by
    simp only [sse_handler_post]
    rw [hm]
    cases hcase : (r.params.getD ⟨none, none⟩).name with
    | none => simp only [hcase]; rfl
    | some s => simp only [hcase, hreg s hcase]; rfl
  exact ⟨hmsg, hsse, by rw [hmsg]; rfl, by rw [hsse]; rfl⟩

/-- Witness for the unknown-tool theorem: `tools/call` naming
`"does_not_exist"`. -/
theorem unknown_tool_error_witness :
    handle_message unusedOracle
        (.parsed ⟨none, some "tools/call", some ⟨some "does_not_exist", none⟩⟩)
        = ⟨200, Json.obj
            [("jsonrpc", Json.str "2.0"), ("id", Json.num 1),
             ("error", Json.obj
               [("code", Json.num (-32601)),
                ("message", Json.str "Tool not found: does_not_exist")])]⟩
      ∧ sse_handler_post unusedOracle
          (.parsed ⟨none, some "tools/call", some ⟨some "does_not_exist", none⟩⟩)
        = ⟨200, Json.obj
            [("jsonrpc", Json.str "2.0"), ("id", Json.num 1),
             ("error", Json.obj
               [("code", Json.num (-32601)),
                ("message", Json.str "Tool not found: does_not_exist")])]⟩
      ∧ (handle_message unusedOracle
          (.parsed ⟨none, some "tools/call",
                    some ⟨some "does_not_exist", none⟩⟩)).hasResult = false
      ∧ (sse_handler_post unusedOracle
          (.parsed ⟨none, some "tools/call",
                    some ⟨some "does_not_exist", none⟩⟩)).hasResult = false :=
  unknown_tool_error unusedOracle
    ⟨none, some "tools/call", some ⟨some "does_not_exist", none⟩⟩ rfl
    (fun s hs => by injection hs with hs; subst hs; decide)

/-- C8: every reply either endpoint gives to a parsed body carries the
request's id, defaulting to `1` when the request omitted it: the reply
body's `id` member equals `body.get("id", 1)`. -/
theorem response_id_correlation (oracle : HandlerOracle) (r : RpcRequest) :
    (handle_message oracle (.parsed r)).body.getKey "id"
        = some (r.id.getD (Json.num 1))
      ∧ (sse_handler_post oracle (.parsed r)).body.getKey "id"
        = some (r.id.getD (Json.num 1)) := by
  constructor <;>
    · simp only [handle_message, sse_handler_post]
      repeat' split
      all_goals rfl

/-- C10: behaviour of the GET /sse event stream: under every fate the
first event is the single `notifications/initialized` push, which carries
the server identity and capabilities and no id; every later event absent
an internal error is a heartbeat comment, one per completed 15-second
sleep, so after 16 seconds of undisturbed waiting the trace is the
initial event plus (at least) one heartbeat; an undisturbed stream grows
by one heartbeat every further 15 seconds and never ends on its own;
cancellation (client disconnect) ends the trace with no further event;
and any other internal exception appends exactly one terminal error
event. -/
theorem event_stream_behaviour :
    (∀ fate, (event_stream fate).head? = some (.message init_message))
      ∧ (∀ fate, (event_stream fate).tail.all (fun ev => ev.isMessage = false) = true)
      ∧ init_message.hasKey "id" = false
      ∧ init_message.getKey "method" = some (Json.str "notifications/initialized")
      ∧ ((init_message.getKey "params").bind
          (fun p => p.getKey "serverInfo")).isSome = true
      ∧ ((init_message.getKey "params").bind
          (fun p => p.getKey "capabilities")).isSome = true
      ∧ (∀ n, (event_stream (.running n)).tail = List.replicate n .heartbeat)
      ∧ (∀ n, event_stream (.cancelled n) = event_stream (.running n))
      ∧ eventsAfter 16 = [.message init_message, .heartbeat]
      ∧ (∀ t, eventsAfter (t + 15) = eventsAfter t ++ [.heartbeat])
      ∧ (∀ n e, event_stream (.failed n e)
          = event_stream (.running n) ++ [.errorEvent (error_message e)]) := by
  refine ⟨?_, ?_, rfl, rfl, rfl, rfl, fun n => rfl, fun n => rfl, rfl, ?_, ?_⟩
  · intro fate
    cases fate <;> rfl
  · intro fate
    cases fate <;>
      simp [event_stream, SSEEvent.isMessage, List.all_eq_true, List.mem_replicate]
  · intro t
    rw [show eventsAfter (t + 15) = event_stream (.running (t / 15 + 1)) from by
      rw [eventsAfter, Nat.add_div_right t (by norm_num)]]
    simp [eventsAfter, event_stream, List.replicate_succ']
  · intro n e
    rfl

end ScreenApp
